import Mathlib

/-!
Verification of the Kleopatra local-IPC transport against its specification.

Byte strings are modelled as `List Nat`, each element the value of one
`unsigned char`. The definitions follow the C++ sources:
  - `hexencode` from `src/libkleopatraclient/core/command.cpp`
  - the `KDPipeIODevice` reader/writer state machines from
    `src/utils/kdpipeiodevice.cpp`
  - the server startup/stop logic from `src/uiserver/uiserver.cpp`
  - the client `Command` option map and `run()` exchange from
    `src/libkleopatraclient/core/command.cpp`
-/

/-! ## Client argument encoding (command.cpp, `hexencode`) -/

/-- The table `static const char hex[] = "0123456789ABCDEF"` as byte values. -/
def hexTable : List Nat :=
  [48, 49, 50, 51, 52, 53, 54, 55, 56, 57, 65, 66, 67, 68, 69, 70]

/-- Indexing into the hex table, `hex[i]`. -/
def hexChar (i : Nat) : Nat := hexTable.getD i 0

/-- One iteration of the `switch` in `hexencode` (command.cpp lines 53-76):
space becomes a plus; the shell specials `" # $ % ' + =` become a percent
escape; bytes in `'!'..'~'` or above `0xA0` are copied; everything else falls
through to the space case and becomes a plus. -/
def encodeByte (ch : Nat) : List Nat :=
  if ch = 32 then
    [43]
  else if ch = 34 ∨ ch = 35 ∨ ch = 36 ∨ ch = 37 ∨ ch = 39 ∨ ch = 43 ∨ ch = 61 then
    [37, hexChar ((ch &&& 240) >>> 4), hexChar (ch &&& 15)]
  else if (33 ≤ ch ∧ ch ≤ 126) ∨ 160 < ch then
    [ch]
  else
    [43]

/-- `hexencode` from command.cpp: the per-byte encoding applied over the
whole input string. -/
def hexencode : List Nat → List Nat
  | [] => []
  | ch :: rest => encodeByte ch ++ hexencode rest

/-- Value of one hexadecimal digit character, as the wire decoder reads it. -/
def hexVal (c : Nat) : Nat :=
  if 48 ≤ c ∧ c ≤ 57 then c - 48
  else if 65 ≤ c ∧ c ≤ 70 then c - 55
  else if 97 ≤ c ∧ c ≤ 102 then c - 87
  else 0

/-- Modelled from the spec: the server-side percent/plus wire decoder is not
under `src/`; per the spec, a `'+'` decodes to a space, `'%'` followed by two
hex digits decodes to the byte they denote, and every other byte is literal. -/
def wireDecode : List Nat → List Nat
  | [] => []
  | [c] => if c = 43 then [32] else [c]
  | [c, d] => (if c = 43 then 32 else c) :: wireDecode [d]
  | c :: h :: l :: rest =>
    if c = 43 then 32 :: wireDecode (h :: l :: rest)
    else if c = 37 then (hexVal h * 16 + hexVal l) :: wireDecode rest
    else c :: wireDecode (h :: l :: rest)

/-- The bytes that survive the encode/decode round trip: space, printable
ASCII `'!'..'~'`, and bytes above `0xA0`. -/
def transparentByte (b : Nat) : Prop :=
  b = 32 ∨ (33 ≤ b ∧ b ≤ 126) ∨ (160 < b ∧ b < 256)

instance (b : Nat) : Decidable (transparentByte b) := by
  unfold transparentByte; infer_instance

lemma wireDecode_plus : ∀ rest : List Nat, wireDecode (43 :: rest) = 32 :: wireDecode rest
  | [] => rfl
  | [_] => rfl
  | _ :: _ :: _ => rfl

lemma wireDecode_pct (h l : Nat) (rest : List Nat) :
    wireDecode (37 :: h :: l :: rest) = (hexVal h * 16 + hexVal l) :: wireDecode rest := rfl

lemma wireDecode_lit (c : Nat) (rest : List Nat) (h43 : c ≠ 43) (h37 : c ≠ 37) :
    wireDecode (c :: rest) = c :: wireDecode rest := by
  match rest with
  | [] => simp [wireDecode, h43]
  | [d] => simp [wireDecode, h43]
  | h :: l :: r => simp [wireDecode, h43, h37]

lemma encodeByte_decodes (b : Nat) (hb : transparentByte b) (rest : List Nat) :
    wireDecode (encodeByte b ++ rest) = b :: wireDecode rest := by
  by_cases h32 : b = 32
  · subst h32
    simp only [encodeByte, if_pos rfl, List.cons_append, List.nil_append]
    exact wireDecode_plus rest
  · by_cases hsp : b = 34 ∨ b = 35 ∨ b = 36 ∨ b = 37 ∨ b = 39 ∨ b = 43 ∨ b = 61
    · have henc : encodeByte b = [37, hexChar ((b &&& 240) >>> 4), hexChar (b &&& 15)] := by
        unfold encodeByte
        rw [if_neg h32, if_pos hsp]
      have hv : hexVal (hexChar ((b &&& 240) >>> 4)) * 16 + hexVal (hexChar (b &&& 15)) = b := by
        rcases hsp with h | h | h | h | h | h | h <;> subst h <;> decide
      rw [henc]
      simp only [List.cons_append, List.nil_append]
      rw [wireDecode_pct, hv]
    · have hlit : (33 ≤ b ∧ b ≤ 126) ∨ 160 < b := by
        rcases hb with h | h | h
        · exact absurd h h32
        · exact Or.inl h
        · exact Or.inr h.1
      have henc : encodeByte b = [b] := by
        unfold encodeByte
        rw [if_neg h32, if_neg hsp, if_pos hlit]
      rw [henc]
      simp only [List.cons_append, List.nil_append]
      exact wireDecode_lit b rest (fun h => hsp (by omega)) (fun h => hsp (by omega))

/-- C1 counterexample: the control byte `0x01` is encoded as a plus sign, so
the wire decoding turns it into a space, breaking the round trip; in
particular it is not escaped as a percent sequence. -/
theorem hexencode_roundtrip_fails_on_control_byte :
    wireDecode (hexencode [1]) ≠ [1] ∧ hexencode [1] = [43] ∧
      wireDecode (hexencode [128]) ≠ [128] := by
  decide

set_option maxRecDepth 8192 in
/-- C1 (amended): the round trip `wireDecode (hexencode s) = s` holds exactly
on inputs whose bytes are space, printable ASCII `'!'..'~'`, or above `0xA0`;
every other byte (control bytes, DEL, and `0x80..0xA0`) is not percent-escaped
but collapsed to a plus sign, which decodes to a space. -/
theorem hexencode_roundtrip_on_transparent_bytes :
    (∀ s : List Nat, (∀ b ∈ s, transparentByte b) → wireDecode (hexencode s) = s) ∧
      (∀ b : Nat, b < 256 → ¬ transparentByte b → encodeByte b = [43]) := by
  constructor
  · intro s hs
    induction s with
    | nil => rfl
    | cons b rest ih =>
      have hb : transparentByte b := hs b (List.mem_cons_self b rest)
      have hrest : ∀ x ∈ rest, transparentByte x := fun x hx => hs x (List.mem_cons_of_mem b hx)
      calc wireDecode (hexencode (b :: rest))
          = wireDecode (encodeByte b ++ hexencode rest) := rfl
        _ = b :: wireDecode (hexencode rest) := encodeByte_decodes b hb _
        _ = b :: rest := by rw [ih hrest]
  · decide

/-- C1 witness: the amended round trip evaluated on a concrete string that
contains a space, the specials `#`, `%`, `=`, and a high byte. -/
theorem hexencode_roundtrip_on_transparent_bytes_witness :
    wireDecode (hexencode [75, 32, 35, 37, 61, 43, 200, 126]) = [75, 32, 35, 37, 61, 43, 200, 126] :=
  hexencode_roundtrip_on_transparent_bytes.1 [75, 32, 35, 37, 61, 43, 200, 126] (by decide)

/-! ## KDPipeIODevice (kdpipeiodevice.cpp) -/

/-- `BUFFER_SIZE` from kdpipeiodevice.cpp line 42. -/
def BUFFER_SIZE : Nat := 4096

/-- Size of the Reader's backing array, `sizeof buffer = BUFFER_SIZE + 1`:
one byte is kept free to tell a full buffer from an empty one (line 118). -/
def RING_SIZE : Nat := 4097

/-- The Reader-side state visible to the consumer thread: ring-buffer
pointers and the sticky eof/error/shortcut flags. -/
structure ReaderState where
  rptr : Nat
  wptr : Nat
  eof : Bool
  error : Bool
  eofShortCut : Bool
deriving DecidableEq

/-- `Reader::bytesInBuffer()` (lines 64-67). -/
def bytesInBuffer (rptr wptr : Nat) : Nat := (wptr + RING_SIZE - rptr) % RING_SIZE

/-- `Reader::bufferEmpty()` (lines 74-77). -/
def readerBufferEmpty (st : ReaderState) : Bool := bytesInBuffer st.rptr st.wptr == 0

/-- `Reader::bufferFull()` (lines 69-72). -/
def readerBufferFull (st : ReaderState) : Bool := bytesInBuffer st.rptr st.wptr == BUFFER_SIZE

/-- `Reader::readData` (lines 634-654): takes bytes from the read pointer up
to the write pointer or the physical end of the array, whichever comes
first, capped at `maxSize`, and advances the read pointer. -/
def readerReadData (st : ReaderState) (maxSize : Nat) : Nat × ReaderState :=
  let numRead0 := if st.rptr < st.wptr then st.wptr - st.rptr else RING_SIZE - st.rptr
  let numRead := if numRead0 > maxSize then maxSize else numRead0
  (numRead, { st with rptr := (st.rptr + numRead) % RING_SIZE })

/-- Outcome of one consumer-side read call: either a return value or the
call sleeps on `bufferNotEmptyCondition`. -/
inductive ReadOutcome where
  | ret (n : Int)
  | blocked
deriving DecidableEq

/-- `KDPipeIODevice::readData` (lines 576-632) with the generic QIODevice
buffer empty (the device is opened `Unbuffered`): the shortcut flag is
checked first, then `maxSize` is capped at `bytesAvailable()` when data is
present; an empty buffer with neither latch makes the call block; an empty
buffer with a latch latches `eofShortCut` and returns 0 for Eof, else -1;
otherwise the ring copy `Reader::readData` runs. -/
def devReadData (st : ReaderState) (maxSize : Nat) : ReadOutcome × ReaderState :=
  if st.eofShortCut then (.ret 0, st)
  else
    let avail := bytesInBuffer st.rptr st.wptr
    let maxSize2 := if avail > 0 then min maxSize avail else maxSize
    if avail = 0 ∧ st.error = false ∧ st.eof = false then (.blocked, st)
    else if avail = 0 then
      (.ret (if st.eof then 0 else -1), { st with eofShortCut := true })
    else
      let r := readerReadData st maxSize2
      (.ret (r.1 : Int), r.2)

/-- The OS-read preparation in `Reader::run` (lines 808-820): reset both
pointers when the buffer is empty, then request the free space capped at the
contiguous region up to the physical end of the array. Returns the adjusted
read/write pointers and the requested size. -/
def readRequest (rptr wptr : Nat) : Nat × Nat × Nat :=
  let p := if rptr = wptr then ((0 : Nat), (0 : Nat)) else (rptr, wptr)
  let numBytes0 := (p.1 + RING_SIZE - p.2 - 1) % RING_SIZE
  let numBytes := if numBytes0 > RING_SIZE - p.2 then RING_SIZE - p.2 else numBytes0
  (p.1, p.2, numBytes)

/-- Device-level state used by `atEnd`: the QIODevice generic read buffer,
the open flag, and the Reader. -/
structure DevState where
  isOpen : Bool
  qioBuffered : Nat
  reader : ReaderState

/-- `QIODevice::atEnd` for a sequential device: true when the device is not
open or the generic read buffer is empty. -/
def qioAtEnd (d : DevState) : Bool := !d.isOpen || d.qioBuffered == 0

/-- `KDPipeIODevice::atEnd` (lines 480-507). -/
def devAtEnd (d : DevState) : Bool :=
  if !(qioAtEnd d) then false
  else if !d.isOpen then true
  else if d.reader.eofShortCut then true
  else (d.reader.error || d.reader.eof) && readerBufferEmpty d.reader

/-- The Writer-side state visible to the consumer thread: the single staging
slot and the sticky error flag. -/
structure WriterState where
  numBytesInBuffer : Nat
  buffer : List Nat
  error : Bool

/-- Outcome of one consumer-side write call: either a return value or the
call sleeps on `bufferEmptyCondition`. -/
inductive WriteOutcome where
  | ret (n : Int)
  | blocked
deriving DecidableEq

/-- `Writer::writeData` (lines 684-700): cap the size at the slot capacity,
copy that prefix into the slot and record the count. -/
def writerWriteData (st : WriterState) (data : List Nat) : Nat × WriterState :=
  let size := if data.length > BUFFER_SIZE then BUFFER_SIZE else data.length
  (size, { st with buffer := data.take size, numBytesInBuffer := size })

/-- `KDPipeIODevice::writeData` (lines 656-682): wait while the slot is
nonempty and no error is latched (modelled as the `blocked` outcome), return
-1 once Error is latched, otherwise stage the bytes. -/
def devWriteData (st : WriterState) (data : List Nat) : WriteOutcome × WriterState :=
  if st.error = false ∧ st.numBytesInBuffer ≠ 0 then (.blocked, st)
  else if st.error = true then (.ret (-1), st)
  else
    let r := writerWriteData st data
    (.ret (r.1 : Int), r.2)

/-- `QIODevice::OpenMode` bits used by `doOpen`: `ReadOnly`. -/
def ReadOnlyFlag : Nat := 1

/-- `QIODevice::OpenMode` bits used by `doOpen`: `WriteOnly`. -/
def WriteOnlyFlag : Nat := 2

/-- `QIODevice::OpenMode` bits used by `doOpen`: `ReadWrite`. -/
def ReadWriteFlag : Nat := 3

/-- `QIODevice::OpenMode` bits used by `doOpen`: `Unbuffered`. -/
def UnbufferedFlag : Nat := 32

/-- The private device fields touched by `doOpen`: the descriptor, the open
mode, and whether a Reader/Writer worker object exists. -/
structure DevPriv where
  fd : Int
  openMode : Nat
  hasReader : Bool
  hasWriter : Bool
deriving DecidableEq

/-- `QIODevice::isOpen`: the open mode is not `NotOpen`. -/
def qioIsOpen (st : DevPriv) : Bool := st.openMode != 0

/-- `KDPipeIODevice::Private::doOpen` (lines 373-420), POSIX branch: fail on
an already-open device, a negative descriptor, or a mode without read and
write; otherwise create the Reader/Writer matching the mode bits, commit the
descriptor and set the open mode to the requested one plus `Unbuffered`. -/
def doOpen (st : DevPriv) (fd : Int) (mode : Nat) : Bool × DevPriv :=
  if qioIsOpen st then (false, st)
  else if fd < 0 then (false, st)
  else if mode &&& ReadWriteFlag = 0 then (false, st)
  else
    (true, { fd := fd
             openMode := mode ||| UnbufferedFlag
             hasReader := mode &&& ReadOnlyFlag != 0
             hasWriter := mode &&& WriteOnlyFlag != 0 })

/-- C2 counterexample: with the buffered bytes wrapping around the physical
end of the ring (read pointer 4095, write pointer 2, 4 bytes available), a
read of 4 returns only the 2 contiguous bytes, not min(4, bytesAvailable);
and once Error is latched on an empty buffer, the first read returns -1 but
every subsequent read returns 0, not -1. -/
theorem readData_claim_counterexample :
    (devReadData ⟨4095, 2, false, false, false⟩ 4).1 = .ret 2 ∧
      ((2 : Int) ≠ ((min 4 (bytesInBuffer 4095 2) : Nat) : Int)) ∧
      (devReadData ⟨0, 0, false, true, false⟩ 5).1 = .ret (-1) ∧
      (devReadData (devReadData ⟨0, 0, false, true, false⟩ 5).2 5).1 = .ret 0 := by
  decide

/-- C2 (amended): per-call behaviour of `KDPipeIODevice::readData` on an
open readable device. With data present the call returns immediately with
the contiguous run from the read pointer capped at n: a positive count (for
n > 0), at most min(n, bytesAvailable), and exactly min(n, bytesAvailable)
whenever the buffered bytes do not wrap, so a wrapped buffer takes two calls
to drain. With the buffer empty the call blocks if neither Eof nor Error is
latched; returns 0 if Eof is latched; returns -1 on the first call if Error
alone is latched, setting `eofShortCut`, after which every further call
returns 0. -/
theorem readData_characterization (st : ReaderState) (n : Nat)
    (hr : st.rptr < RING_SIZE) (hw : st.wptr < RING_SIZE) :
    (st.eofShortCut = true → devReadData st n = (.ret 0, st)) ∧
    (st.eofShortCut = false → bytesInBuffer st.rptr st.wptr = 0 → st.eof = false →
      st.error = false → devReadData st n = (.blocked, st)) ∧
    (st.eofShortCut = false → bytesInBuffer st.rptr st.wptr = 0 → st.eof = true →
      devReadData st n = (.ret 0, { st with eofShortCut := true })) ∧
    (st.eofShortCut = false → bytesInBuffer st.rptr st.wptr = 0 → st.eof = false →
      st.error = true →
      devReadData st n = (.ret (-1), { st with eofShortCut := true })) ∧
    (st.eofShortCut = false → 0 < bytesInBuffer st.rptr st.wptr →
      ∃ k : Nat, devReadData st n =
          (.ret (k : Int), { st with rptr := (st.rptr + k) % RING_SIZE }) ∧
        (0 < n → 0 < k) ∧ k ≤ min n (bytesInBuffer st.rptr st.wptr) ∧
        (st.rptr < st.wptr → k = min n (bytesInBuffer st.rptr st.wptr)) ∧
        (st.wptr < st.rptr → k = min n (RING_SIZE - st.rptr))) := by
  refine ⟨?_, ?_, ?_, ?_, ?_⟩
  · intro h
    simp [devReadData, h]
  · intro hsc hz he herr
    simp [devReadData, hsc, hz, he, herr]
  · intro hsc hz he
    simp [devReadData, hsc, hz, he]
  · intro hsc hz he herr
    simp [devReadData, hsc, hz, he, herr]
  · intro hsc hpos
    have hz : ¬ (bytesInBuffer st.rptr st.wptr = 0 ∧ st.error = false ∧ st.eof = false) :=
      fun h => by omega
    refine ⟨(readerReadData st (min n (bytesInBuffer st.rptr st.wptr))).1, ?_, ?_⟩
    · simp [devReadData, hsc, hpos, hz, Nat.pos_iff_ne_zero.mp hpos, readerReadData]
    · unfold readerReadData bytesInBuffer RING_SIZE at *
      simp only []
      refine ⟨?_, ?_, ?_, ?_⟩ <;> [skip; skip; skip; skip] <;>
        first
        | (intro h; split <;> split <;> omega)
        | (split <;> split <;> omega)

/-- C2 witness: the amended characterization evaluated at concrete states —
an Eof-latched empty buffer returns 0, and a non-wrapping buffer of 3 bytes
answers a 2-byte read with min(2, bytesAvailable) = 2. -/
theorem readData_characterization_witness :
    devReadData ⟨0, 0, true, false, false⟩ 5 = (.ret 0, ⟨0, 0, true, false, true⟩) ∧
      ∃ k : Nat, devReadData ⟨0, 3, false, false, false⟩ 2 =
          (.ret (k : Int), { rptr := (0 + k) % RING_SIZE, wptr := 3, eof := false,
                             error := false, eofShortCut := false }) ∧
        (0 < 2 → 0 < k) ∧ k ≤ min 2 (bytesInBuffer 0 3) ∧
        ((0 : Nat) < 3 → k = min 2 (bytesInBuffer 0 3)) ∧
        ((3 : Nat) < 0 → k = min 2 (RING_SIZE - 0)) :=
  ⟨(readData_characterization ⟨0, 0, true, false, false⟩ 5 (by decide) (by decide)).2.2.1
      rfl (by decide) rfl,
   (readData_characterization ⟨0, 3, false, false, false⟩ 2 (by decide) (by decide)).2.2.2.2
      rfl (by decide)⟩

/-- C8: whenever `Reader::run` reaches its blocking OS read (so the buffer
is not full), the requested size is strictly positive (so the assertion
`numBytes > 0` holds), the read stays inside the physical array, the size
fits in the free space, and no requested position overlaps a buffered,
not-yet-consumed byte — so a free region that wraps is only filled up to the
array end, and a second read is needed for the rest. -/
theorem readRequest_safe (r w : Nat) (hr : r < RING_SIZE) (hw : w < RING_SIZE)
    (hnotfull : bytesInBuffer r w ≠ BUFFER_SIZE) :
    ∃ r2 w2 nb, readRequest r w = (r2, w2, nb) ∧
      0 < nb ∧
      w2 + nb ≤ RING_SIZE ∧
      nb + bytesInBuffer r2 w2 ≤ BUFFER_SIZE ∧
      bytesInBuffer r2 w2 = bytesInBuffer r w ∧
      ∀ i j, i < nb → j < bytesInBuffer r2 w2 → w2 + i ≠ (r2 + j) % RING_SIZE := by
  unfold bytesInBuffer RING_SIZE BUFFER_SIZE at *
  by_cases hrw : r = w
  · refine ⟨0, 0, 4096, ?_, ?_, ?_, ?_, ?_, ?_⟩
    · simp [readRequest, RING_SIZE, hrw]
    · omega
    · omega
    · omega
    · omega
    · intro i j hi hj; omega
  · by_cases hc : (r + 4097 - w - 1) % 4097 > 4097 - w
    · refine ⟨r, w, 4097 - w, ?_, ?_, ?_, ?_, ?_, ?_⟩
      · simp [readRequest, RING_SIZE, hrw, hc]
      · omega
      · omega
      · omega
      · omega
      · intro i j hi hj; omega
    · refine ⟨r, w, (r + 4097 - w - 1) % 4097, ?_, ?_, ?_, ?_, ?_, ?_⟩
      · simp [readRequest, RING_SIZE, hrw]
        omega
      · omega
      · omega
      · omega
      · omega
      · intro i j hi hj; omega

/-- C8 witness: the OS-read bound evaluated at a wrapped configuration
(read pointer 10, write pointer 4090): the request stops at the physical
array end. -/
theorem readRequest_safe_witness :
    ∃ r2 w2 nb, readRequest 10 4090 = (r2, w2, nb) ∧
      0 < nb ∧
      w2 + nb ≤ RING_SIZE ∧
      nb + bytesInBuffer r2 w2 ≤ BUFFER_SIZE ∧
      bytesInBuffer r2 w2 = bytesInBuffer 10 4090 ∧
      ∀ i j, i < nb → j < bytesInBuffer r2 w2 → w2 + i ≠ (r2 + j) % RING_SIZE :=
  readRequest_safe 10 4090 (by decide) (by decide) (by decide)

/-- C6: on an open readable device (under the Reader invariant that the
shortcut flag is only ever set with a latch and a drained ring), `atEnd` is
true exactly when Eof or Error is latched and both the ring buffer and the
generic QIODevice buffer are empty; in particular, with no latch it is false
even when no byte is available. -/
theorem atEnd_iff_latched_and_drained (d : DevState) (hopen : d.isOpen = true)
    (hinv : d.reader.eofShortCut = true →
      (d.reader.eof = true ∨ d.reader.error = true) ∧
        bytesInBuffer d.reader.rptr d.reader.wptr = 0) :
    (devAtEnd d = true ↔
      ((d.reader.eof = true ∨ d.reader.error = true) ∧
        bytesInBuffer d.reader.rptr d.reader.wptr = 0 ∧ d.qioBuffered = 0)) ∧
    (d.reader.eof = false → d.reader.error = false → devAtEnd d = false) := by
  constructor
  · by_cases hq : d.qioBuffered = 0
    · by_cases hsc : d.reader.eofShortCut = true
      · simp [devAtEnd, qioAtEnd, hopen, hq, hsc, hinv hsc]
      · simp only [Bool.not_eq_true] at hsc
        simp [devAtEnd, qioAtEnd, readerBufferEmpty, hopen, hq, hsc]
        tauto
    · simp [devAtEnd, qioAtEnd, hopen, hq]
  · intro he herr
    by_cases hq : d.qioBuffered = 0
    · have hsc : d.reader.eofShortCut = false := by
        cases hcases : d.reader.eofShortCut
        · rfl
        · rcases (hinv hcases).1 with h | h
          · rw [he] at h; exact absurd h (by simp)
          · rw [herr] at h; exact absurd h (by simp)
      simp [devAtEnd, qioAtEnd, readerBufferEmpty, hopen, hq, hsc, he, herr]
    · simp [devAtEnd, qioAtEnd, hopen, hq]

/-- C6 witness: with 2 unread ring bytes and no latch, `atEnd` is false on a
device state that is open with an empty generic buffer; and with Eof latched
and everything drained it is true. -/
theorem atEnd_iff_latched_and_drained_witness :
    (devAtEnd ⟨true, 0, ⟨0, 2, false, false, false⟩⟩ = false) ∧
      (devAtEnd ⟨true, 0, ⟨5, 5, true, false, false⟩⟩ = true) :=
  ⟨(atEnd_iff_latched_and_drained ⟨true, 0, ⟨0, 2, false, false, false⟩⟩ rfl
      (by intro h; exact absurd h (by decide))).2 rfl rfl,
   (atEnd_iff_latched_and_drained ⟨true, 0, ⟨5, 5, true, false, false⟩⟩ rfl
      (by intro h; exact absurd h (by decide))).1.mpr ⟨Or.inl rfl, by decide, rfl⟩⟩

/-- C7: on a device whose Writer has not latched Error and whose staging
slot has drained, `writeData` stages exactly min(n, BUFFER_SIZE) bytes — a
short write whenever n exceeds the 4096-byte capacity, whose remainder the
caller must re-send — and returns that count; once Error is latched it
returns -1 and changes nothing. -/
theorem writeData_short_write_and_error (st : WriterState) (data : List Nat) :
    (st.error = false → st.numBytesInBuffer = 0 →
      devWriteData st data =
        (.ret ((min data.length BUFFER_SIZE : Nat) : Int),
         { st with buffer := data.take (min data.length BUFFER_SIZE),
                   numBytesInBuffer := min data.length BUFFER_SIZE })) ∧
    (st.error = false → st.numBytesInBuffer = 0 → BUFFER_SIZE < data.length →
      (devWriteData st data).1 = .ret (BUFFER_SIZE : Nat)) ∧
    (st.error = true → devWriteData st data = (.ret (-1), st)) := by
  refine ⟨?_, ?_, ?_⟩
  · intro herr hempty
    have hmin : (if data.length > BUFFER_SIZE then BUFFER_SIZE else data.length)
        = min data.length BUFFER_SIZE := by
      unfold BUFFER_SIZE; split <;> omega
    simp [devWriteData, writerWriteData, herr, hempty, hmin]
  · intro herr hempty hlong
    have hmin : (if data.length > BUFFER_SIZE then BUFFER_SIZE else data.length)
        = BUFFER_SIZE := by
      split <;> omega
    simp [devWriteData, writerWriteData, herr, hempty, hmin]
  · intro herr
    simp [devWriteData, herr]

/-- C7 witness: a 5000-byte request against an idle Writer is cut to the
4096-byte capacity, and an error-latched Writer answers -1. -/
theorem writeData_short_write_and_error_witness :
    (devWriteData ⟨0, [], false⟩ (List.replicate 5000 7)).1 = .ret (BUFFER_SIZE : Nat) ∧
      devWriteData ⟨0, [], true⟩ [1, 2] = (.ret (-1), ⟨0, [], true⟩) :=
  ⟨(writeData_short_write_and_error ⟨0, [], false⟩ (List.replicate 5000 7)).2.1
      rfl rfl (by norm_num [List.length_replicate, BUFFER_SIZE]),
   (writeData_short_write_and_error ⟨0, [], true⟩ [1, 2]).2.2 rfl⟩

/-- C9: `doOpen` fails and leaves the device state untouched when the device
is already open, the descriptor is negative, or the mode has neither the
read nor the write bit; otherwise it succeeds, creates a Reader exactly when
the read bit is set and a Writer exactly when the write bit is set, commits
the descriptor, and sets the open mode to the requested mode plus
`Unbuffered` — in particular the device is then open. -/
theorem doOpen_guards_and_success (st : DevPriv) (fd : Int) (mode : Nat) :
    (qioIsOpen st = true → doOpen st fd mode = (false, st)) ∧
    (fd < 0 → doOpen st fd mode = (false, st)) ∧
    (mode &&& ReadWriteFlag = 0 → doOpen st fd mode = (false, st)) ∧
    (qioIsOpen st = false → 0 ≤ fd → mode &&& ReadWriteFlag ≠ 0 →
      doOpen st fd mode =
          (true, ⟨fd, mode ||| UnbufferedFlag,
                  mode &&& ReadOnlyFlag != 0, mode &&& WriteOnlyFlag != 0⟩) ∧
        qioIsOpen ⟨fd, mode ||| UnbufferedFlag,
                  mode &&& ReadOnlyFlag != 0, mode &&& WriteOnlyFlag != 0⟩ = true) := by
  refine ⟨?_, ?_, ?_, ?_⟩
  · intro h
    simp [doOpen, h]
  · intro h
    by_cases hopen : qioIsOpen st = true
    · simp [doOpen, hopen]
    · simp only [Bool.not_eq_true] at hopen
      simp [doOpen, hopen, h]
  · intro h
    by_cases hopen : qioIsOpen st = true
    · simp [doOpen, hopen]
    · simp only [Bool.not_eq_true] at hopen
      by_cases hfd : fd < 0
      · simp [doOpen, hopen, hfd]
      · simp [doOpen, hopen, hfd, h]
  · intro hopen hfd hmode
    have hfd2 : ¬ fd < 0 := by omega
    refine ⟨by simp [doOpen, hopen, hfd2, hmode], ?_⟩
    have hne : mode ||| UnbufferedFlag ≠ 0 := by
      unfold UnbufferedFlag
      intro h
      have ht : Nat.testBit (mode ||| 32) 5 = false := by rw [h]; decide
      rw [Nat.testBit_lor] at ht
      simp only [Bool.or_eq_false_iff] at ht
      exact absurd ht.2 (by decide)
    simp [qioIsOpen, hne]

/-! ## UiServer (uiserver.cpp) -/

/-- `UiServer::Private::isStaleAssuanSocket` (lines 63-78): perform a trial
connect to the file; the socket is stale exactly when the connect fails. -/
def isStaleAssuanSocket (connectSucceeds : Bool) : Bool := !connectSucceeds

/-- The startup error thrown when another server is live (line 288). -/
def alreadyRunningError : String :=
  "Detected another running gnupg UI server listening at the socket."

/-- Result of `UiServer::Private::makeListeningSocket`: whether a
pre-existing endpoint file was removed, and either a successful
bind-and-listen or the thrown startup error. -/
structure StartResult where
  removedExisting : Bool
  outcome : Except String Unit

/-- `UiServer::Private::makeListeningSocket` (lines 278-295): when a file
already exists at the endpoint path, a stale one is removed and the bind
proceeds, a live one aborts startup without touching the file.
`doMakeListeningSocket` itself is modelled from the spec (its definition is
not under `src/`) as the successful bind/listen at the path. -/
def makeListeningSocket (fileExists connectSucceeds : Bool) : StartResult :=
  if fileExists then
    if isStaleAssuanSocket connectSucceeds then ⟨true, .ok ()⟩
    else ⟨false, .error alreadyRunningError⟩
  else ⟨false, .ok ()⟩

/-- C3: startup with a pre-existing endpoint file removes the file and
listens when the trial connect fails (stale socket), and fails with the
descriptive already-running error — leaving the file in place — when the
trial connect succeeds; with no pre-existing file it just listens. -/
theorem makeListeningSocket_stale_vs_live :
    makeListeningSocket true false = ⟨true, .ok ()⟩ ∧
      makeListeningSocket true true = ⟨false, .error alreadyRunningError⟩ ∧
      makeListeningSocket false false = ⟨false, .ok ()⟩ ∧
      makeListeningSocket false true = ⟨false, .ok ()⟩ :=
  ⟨rfl, rfl, rfl, rfl⟩

/-- The server state inspected by `UiServer::isStopped`: the live connection
set (connections named by their descriptor) and whether the listening socket
is still open. -/
structure ServerState where
  connections : List Nat
  listening : Bool
deriving DecidableEq

/-- `UiServer::isStopped` (lines 171-174). -/
def isStopped (s : ServerState) : Bool := s.connections.isEmpty && !s.listening

/-- `UiServer::isStopping` (lines 176-179). -/
def isStopping (s : ServerState) : Bool := !s.connections.isEmpty && !s.listening

/-- `UiServer::stop` (lines 123-137): close the listening socket, remove the
socket file, and emit `stopped` only if the server is now stopped. Returns
the new state and whether the signal was emitted. -/
def uiServerStop (s : ServerState) : ServerState × Bool :=
  let s2 : ServerState := { s with listening := false }
  (s2, isStopped s2)

/-- `UiServer::Private::slotConnectionClosed` (lines 181-193): erase the
closed connection from the live set, then emit `stopped` only if the server
is now stopped. Returns the new state and whether the signal was emitted. -/
def slotConnectionClosed (conn : Nat) (s : ServerState) : ServerState × Bool :=
  let s2 : ServerState := { s with connections := s.connections.filter (fun c => c != conn) }
  (s2, isStopped s2)

/-- C4: the server is stopped exactly when the live connection set is empty
and the listening socket is closed; `stop` closes the socket but leaves the
connections, and emits `stopped` exactly when no connection is in flight;
closing a connection emits `stopped` exactly when it was the last one and
the socket is already closed — so in-flight connections keep the server out
of the stopped state until the last one is removed. -/
theorem stopped_iff_drained_and_closed (s : ServerState) (c : Nat) :
    (isStopped s = true ↔ s.connections = [] ∧ s.listening = false) ∧
    ((uiServerStop s).1.listening = false ∧ (uiServerStop s).1.connections = s.connections) ∧
    ((uiServerStop s).2 = true ↔ s.connections = []) ∧
    (s.connections ≠ [] → isStopped (uiServerStop s).1 = false ∧ (uiServerStop s).2 = false) ∧
    ((slotConnectionClosed c s).1.listening = s.listening) ∧
    ((slotConnectionClosed c s).2 = true ↔
      (slotConnectionClosed c s).1.connections = [] ∧ s.listening = false) := by
  refine ⟨?_, ⟨rfl, rfl⟩, ?_, ?_, rfl, ?_⟩
  · simp [isStopped, List.isEmpty_iff]
  · simp [uiServerStop, isStopped, List.isEmpty_iff]
  · intro h
    constructor <;> simp [uiServerStop, isStopped, List.isEmpty_iff, h]
  · simp [slotConnectionClosed, isStopped, List.isEmpty_iff]

/-- C4 witness: with one in-flight connection, `stop` closes the socket but
does not emit `stopped`; the later close of that last connection does. -/
theorem stopped_iff_drained_and_closed_witness :
    (isStopped (uiServerStop ⟨[7], true⟩).1 = false ∧ (uiServerStop ⟨[7], true⟩).2 = false) ∧
      ((slotConnectionClosed 7 ⟨[7], false⟩).2 = true) :=
  ⟨(stopped_iff_drained_and_closed ⟨[7], true⟩ 7).2.2.2.1 (by decide),
   (stopped_iff_drained_and_closed ⟨[7], false⟩ 7).2.2.2.2.2.mpr ⟨by decide, rfl⟩⟩

/-! ## Client Command (libkleopatraclient/core/command.cpp) -/

/-- One entry of the client option map, `Command::Private::Option`: the
QVariant value (`none` models an invalid QVariant), the `hasValue` flag, and
whether a send failure is fatal. -/
structure OptionRec where
  value : Option String
  hasValue : Bool
  isCritical : Bool
deriving DecidableEq

/-- The `Command::Private::Inputs` fields staged by the caller before
`run()`. -/
structure Inputs where
  parentWId : Nat
  options : List (String × OptionRec)
  filePaths : List String
  recipients : List String
  areRecipientsInformative : Bool
  senders : List String
  areSendersInformative : Bool
  inquireData : List (String × List Nat)
  command : String
deriving DecidableEq

/-- A `const char *` option name: `none` models a null pointer, so the guard
`!name || !*name` holds for `none` and for the empty string. -/
def nullOrEmpty (name : Option String) : Bool :=
  match name with
  | none => true
  | some s => s == ""

/-- `std::map` insert-or-assign, as `options[name] = opt` does. -/
def mapInsert (k : String) (v : OptionRec) : List (String × OptionRec) → List (String × OptionRec)
  | [] => [(k, v)]
  | (k2, v2) :: rest => if k2 = k then (k, v) :: rest else (k2, v2) :: mapInsert k v rest

/-- `std::map::find` on the option map. -/
def mapFind (k : String) : List (String × OptionRec) → Option OptionRec
  | [] => none
  | (k2, v2) :: rest => if k2 = k then some v2 else mapFind k rest

/-- `std::map::erase` by key on the option map. -/
def mapErase (k : String) (m : List (String × OptionRec)) : List (String × OptionRec) :=
  m.filter (fun p => p.1 != k)

/-- `Command::setOptionValue` (lines 192-204): a null or empty name is
ignored; otherwise the option is stored with `hasValue = true`. -/
def setOptionValue (st : Inputs) (name : Option String) (value : Option String)
    (critical : Bool) : Inputs :=
  match name with
  | none => st
  | some n =>
    if n = "" then st
    else { st with options := mapInsert n ⟨value, true, critical⟩ st.options }

/-- `Command::optionValue` (lines 206-219): a null or empty name yields the
invalid QVariant; otherwise the stored value, if any. -/
def optionValue (st : Inputs) (name : Option String) : Option String :=
  match name with
  | none => none
  | some n =>
    if n = "" then none
    else
      match mapFind n st.options with
      | none => none
      | some o => o.value

/-- `Command::isOptionSet` (lines 250-257). -/
def isOptionSet (st : Inputs) (name : Option String) : Bool :=
  match name with
  | none => false
  | some n => if n = "" then false else (mapFind n st.options).isSome

/-- `Command::unsetOption` (lines 241-248). -/
def unsetOption (st : Inputs) (name : Option String) : Inputs :=
  match name with
  | none => st
  | some n => if n = "" then st else { st with options := mapErase n st.options }

/-- `Command::setOption` (lines 221-239): a null or empty name is ignored;
otherwise any existing entry is erased and a value-less option stored. -/
def setOption (st : Inputs) (name : Option String) (critical : Bool) : Inputs :=
  match name with
  | none => st
  | some n =>
    if n = "" then st
    else
      let st2 := if isOptionSet st (some n) then unsetOption st (some n) else st
      { st2 with options := mapInsert n ⟨none, false, critical⟩ st2.options }

/-- `Command::isOptionCritical` (lines 259-267). -/
def isOptionCritical (st : Inputs) (name : Option String) : Bool :=
  match name with
  | none => false
  | some n =>
    if n = "" then false
    else
      match mapFind n st.options with
      | none => false
      | some o => o.isCritical

/-- C10: with a null or empty option name, the mutators `setOptionValue`,
`setOption` and `unsetOption` leave the whole command state unchanged, and
the queries `optionValue`, `isOptionSet` and `isOptionCritical` return the
neutral value (invalid QVariant / false) whatever the map holds. -/
theorem optionOps_ignore_null_or_empty_name (st : Inputs) (name : Option String)
    (value : Option String) (critical : Bool) (h : nullOrEmpty name = true) :
    setOptionValue st name value critical = st ∧
    setOption st name critical = st ∧
    unsetOption st name = st ∧
    optionValue st name = none ∧
    isOptionSet st name = false ∧
    isOptionCritical st name = false := by
  cases name with
  | none => exact ⟨rfl, rfl, rfl, rfl, rfl, rfl⟩
  | some n =>
    have hn : n = "" := by simpa [nullOrEmpty] using h
    subst hn
    refine ⟨?_, ?_, ?_, ?_, ?_, ?_⟩ <;>
      simp [setOptionValue, setOption, unsetOption, optionValue, isOptionSet, isOptionCritical]

/-- C10 witness: the neutral behaviour evaluated on a command state that
already holds a critical option, for the empty name. -/
theorem optionOps_ignore_null_or_empty_name_witness :
    setOptionValue ⟨0, [("x", ⟨some "v", true, true⟩)], [], [], false, [], false, [], "CMD"⟩
        (some "") (some "w") false
      = ⟨0, [("x", ⟨some "v", true, true⟩)], [], [], false, [], false, [], "CMD"⟩ ∧
    isOptionCritical ⟨0, [("x", ⟨some "v", true, true⟩)], [], [], false, [], false, [], "CMD"⟩
        (some "") = false :=
  ⟨(optionOps_ignore_null_or_empty_name
      ⟨0, [("x", ⟨some "v", true, true⟩)], [], [], false, [], false, [], "CMD"⟩
      (some "") (some "w") false (by decide)).1,
   (optionOps_ignore_null_or_empty_name
      ⟨0, [("x", ⟨some "v", true, true⟩)], [], [], false, [], false, [], "CMD"⟩
      (some "") (some "w") false (by decide)).2.2.2.2.2⟩

/-- `GPG_ERR_CANCELED` from gpg-error.h. -/
def GPG_ERR_CANCELED : Nat := 99

/-- `gpg_err_code`: the low 16 bits of a gpg error value. -/
def gpg_err_code (err : Nat) : Nat := err % 65536

/-- The peer and platform behaviour observed by one execution of
`Command::Private::run` (lines 548-700): the resolved default socket name,
the error value of each assuan step (0 = success), whether spawning the
server succeeds, the pid the server reports, and the data bytes streamed
back by the final transact (or before it fails). -/
structure ClientEnv where
  defaultSocketName : String
  allocErr : Nat
  connectErr : Nat
  spawnOk : Bool
  retryErr : Nat
  pidErr : Nat
  pid : Int
  windowIdErr : Nat
  optionErr : String → Option String → Nat
  fileErr : String → Nat
  senderErr : String → Nat
  recipientErr : String → Nat
  commandErr : Nat
  commandData : List Nat
  commandPartial : List Nat

/-- The `Command::Private::Outputs` fields copied back under the mutex when
`run` leaves. -/
structure Outputs where
  canceled : Bool
  errorString : String
  serverPid : Int
  data : List Nat
  serverLocation : String
deriving DecidableEq

/-- The `OPTION` loop of `run` (lines 654-662): the first failing critical
option aborts with its message; failing non-critical options are only
logged. -/
def sendOptions (errOf : String → Option String → Nat) :
    List (String × OptionRec) → Except String Unit
  | [] => .ok ()
  | (name, opt) :: rest =>
    if errOf name (if opt.hasValue then opt.value else none) ≠ 0 then
      if opt.isCritical then .error ("Failed to send critical option " ++ name)
      else sendOptions errOf rest
    else sendOptions errOf rest

/-- The `FILE`/`SENDER`/`RECIPIENT` loops of `run` (lines 664-680): the
first failure aborts with its message. -/
def sendEach (errOf : String → Nat) (msg : String) : List String → Except String Unit
  | [] => .ok ()
  | x :: rest => if errOf x ≠ 0 then .error (msg ++ x) else sendEach errOf msg rest

/-- `Command::Private::run` (lines 548-700): resolve the socket name,
allocate and connect (spawning the server and retrying when the first
connect fails), ask the server pid, send the window-id option (failure
ignored), send options (critical failures fatal), then files, senders and
recipients (all fatal), and finally transact the main command; a failing
step jumps to `leave` with a non-empty error message, except that a
`GPG_ERR_CANCELED` answer to the main command only sets the `canceled`
flag. An empty staged command skips everything after the pid query. -/
def clientRun (inp : Inputs) (env : ClientEnv) : Outputs :=
  let out0 : Outputs := ⟨false, "", 0, [], env.defaultSocketName⟩
  if env.defaultSocketName = "" then { out0 with errorString := "Invalid socket name!" }
  else if env.allocErr ≠ 0 then
    { out0 with errorString := "Could not allocate resources to connect to Kleopatra UI server" }
  else if env.connectErr ≠ 0 ∧ env.spawnOk = false then
    { out0 with errorString := "Failed to start uiserver kleopatra" }
  else if env.connectErr ≠ 0 ∧ env.retryErr ≠ 0 then
    { out0 with errorString := "Could not connect to Kleopatra UI server" }
  else
    let pid : Int := if env.pidErr = 0 then env.pid else -1
    if env.pidErr ≠ 0 ∨ pid ≤ 0 then
      { out0 with errorString := "Could not get the process-id of the Kleopatra UI server",
                  serverPid := pid }
    else if inp.command = "" then { out0 with serverPid := pid }
    else
      match sendOptions env.optionErr inp.options with
      | .error msg => { out0 with errorString := msg, serverPid := pid }
      | .ok () =>
        match sendEach env.fileErr "Failed to send file path " inp.filePaths with
        | .error msg => { out0 with errorString := msg, serverPid := pid }
        | .ok () =>
          match sendEach env.senderErr "Failed to send sender " inp.senders with
          | .error msg => { out0 with errorString := msg, serverPid := pid }
          | .ok () =>
            match sendEach env.recipientErr "Failed to send recipient " inp.recipients with
            | .error msg => { out0 with errorString := msg, serverPid := pid }
            | .ok () =>
              if env.commandErr ≠ 0 then
                if gpg_err_code env.commandErr = GPG_ERR_CANCELED then
                  { out0 with canceled := true, serverPid := pid, data := env.commandPartial }
                else
                  { out0 with errorString := "Command failed", serverPid := pid,
                              data := env.commandPartial }
              else { out0 with serverPid := pid, data := env.commandData }

/-- C5: a `GPG_ERR_CANCELED` answer to the main command is the only way the
cancellation flag is set, and it leaves the error string empty (so `error()`
reports false); every other failure leaves the flag clear and records a
non-empty message; a critical-option failure fixes the result independently
of every later protocol step (they are skipped); and when every step up to
the main command succeeds, a canceled answer sets exactly the flag while any
other non-zero answer sets exactly a non-empty error string. -/
theorem clientRun_canceled_distinct_from_error (inp : Inputs) (env : ClientEnv) :
    ((clientRun inp env).canceled = true → (clientRun inp env).errorString = "" ∧
      env.commandErr ≠ 0 ∧ gpg_err_code env.commandErr = GPG_ERR_CANCELED) ∧
    (∀ msg, sendOptions env.optionErr inp.options = .error msg →
      ∀ f s r ce cd cp,
        clientRun inp { env with fileErr := f, senderErr := s, recipientErr := r,
                                 commandErr := ce, commandData := cd, commandPartial := cp }
          = clientRun inp env) ∧
    (env.defaultSocketName ≠ "" → env.allocErr = 0 → env.connectErr = 0 →
      env.pidErr = 0 → 0 < env.pid → inp.command ≠ "" →
      sendOptions env.optionErr inp.options = .ok () →
      sendEach env.fileErr "Failed to send file path " inp.filePaths = .ok () →
      sendEach env.senderErr "Failed to send sender " inp.senders = .ok () →
      sendEach env.recipientErr "Failed to send recipient " inp.recipients = .ok () →
      env.commandErr ≠ 0 →
      ((gpg_err_code env.commandErr = GPG_ERR_CANCELED →
          (clientRun inp env).canceled = true ∧ (clientRun inp env).errorString = "") ∧
       (gpg_err_code env.commandErr ≠ GPG_ERR_CANCELED →
          (clientRun inp env).canceled = false ∧ (clientRun inp env).errorString ≠ ""))) := by
  refine ⟨?_, ?_, ?_⟩
  · simp only [clientRun]
    repeat' split
    all_goals simp_all
  · intro msg hmsg f s r ce cd cp
    simp only [clientRun, hmsg]
  · intro h1 h2 h3 h4 hpid hcmd hopt hfile hsend hrecip hce
    have hple : ¬ env.pid ≤ 0 := not_le.mpr hpid
    constructor
    · intro hcode
      simp [clientRun, h1, h2, h3, h4, hple, hcmd, hopt, hfile, hsend, hrecip, hce, hcode]
    · intro hcode
      simp [clientRun, h1, h2, h3, h4, hple, hcmd, hopt, hfile, hsend, hrecip, hce, hcode]

/-- A command staging only the main verb, for evaluating `clientRun`. -/
def inpW : Inputs := ⟨0, [], [], [], false, [], false, [], "ENCRYPT"⟩

/-- A peer that accepts every step and answers the main command with the
bare `GPG_ERR_CANCELED` status. -/
def envW : ClientEnv :=
  ⟨"sock", 0, 0, true, 0, 0, 5, 0, fun _ _ => 0, fun _ => 0, fun _ => 0, fun _ => 0, 99, [], []⟩

/-- C5 witness: against a peer that cancels the main command, `run` ends
with the cancellation flag set and an empty error string. -/
theorem clientRun_canceled_distinct_from_error_witness :
    (clientRun inpW envW).canceled = true ∧ (clientRun inpW envW).errorString = "" :=
  ((clientRun_canceled_distinct_from_error inpW envW).2.2 (by decide) rfl rfl rfl (by decide)
      (by decide) rfl rfl rfl rfl (by decide)).1 rfl

/-- C9 witness: opening a closed device with descriptor 3 in `ReadOnly`
succeeds and creates exactly a Reader, while a second open on an already
open device fails and changes nothing. -/
theorem doOpen_guards_and_success_witness :
    (doOpen ⟨-1, 0, false, false⟩ 3 1 =
        (true, ⟨3, 1 ||| UnbufferedFlag, 1 &&& ReadOnlyFlag != 0, 1 &&& WriteOnlyFlag != 0⟩) ∧
      qioIsOpen ⟨3, 1 ||| UnbufferedFlag, 1 &&& ReadOnlyFlag != 0, 1 &&& WriteOnlyFlag != 0⟩
        = true) ∧
    doOpen ⟨5, 33, true, false⟩ 3 1 = (false, ⟨5, 33, true, false⟩) :=
  ⟨(doOpen_guards_and_success ⟨-1, 0, false, false⟩ 3 1).2.2.2 rfl (by decide) (by decide),
   (doOpen_guards_and_success ⟨5, 33, true, false⟩ 3 1).1 rfl⟩
